import Mathlib

/-!
# emojiDB backend (`emoji-app/backend/main.go`)

A shallow embedding of the three HTTP handlers `getEmojis`, `addEmoji`,
`deleteEmoji` and of the router built in `main`, together with the parts of the
Go libraries and of the database the handlers call.

* Go `error` values are records carrying the text `Error()` returns.
* `http.ResponseWriter` is an in-memory recorder: header map, the status passed
  to the first `WriteHeader`, and the chunks written as body.
* The package-level `db *sql.DB` is threaded explicitly as a `DB` value: the rows
  of table `emojis` in the order a `SELECT` delivers them and the log of the
  statements issued so far.  How the database reacts to a statement (failure,
  id assigned to a new row) is given by an `Env` argument.
-/

namespace EmojiDB

/-! ## Go values -/

/-- A Go `error`: the text returned by its `Error()` method. -/
structure GoErr where
  Error : String
  deriving DecidableEq, Repr

/-- The struct `Emoji` of `main.go` (fields `ID int`, `Character string`). -/
structure Emoji where
  ID : Int
  Character : String
  deriving DecidableEq, Repr

deriving instance DecidableEq for Except

/-- A Go slice value `[]T`: `none` is the nil slice, `some xs` a non-nil slice. -/
abbrev Slice (α : Type) := Option (List α)

/-- Go `append(s, x)`: appending to the nil slice allocates a one-element slice. -/
def goAppend {α : Type} : Slice α → α → Slice α
  | none, x => some [x]
  | some xs, x => some (xs ++ [x])

/-- The elements of a slice (the nil slice has none). -/
def Slice.elems {α : Type} : Slice α → List α
  | none => []
  | some xs => xs

/-- Bounds of the 64-bit Go `int`. -/
def minInt : Int := -(2 ^ 63)

/-- Largest Go `int`. -/
def maxInt : Int := 2 ^ 63 - 1

/-- Largest `uint64`. -/
def maxUint64 : Nat := 2 ^ 64 - 1

/-! ## JSON values -/

/-- A JSON value.  Number literals without fraction and exponent are `int`,
all other number literals are kept as their text in `real`. -/
inductive JSON where
  | null
  | bool (b : Bool)
  | int (n : Int)
  | real (lit : String)
  | str (s : String)
  | arr (xs : List JSON)
  | obj (members : List (String × JSON))

/-- The word `encoding/json` uses for the kind of a value in an
`UnmarshalTypeError`. -/
def JSON.kind : JSON → String
  | .null => "null"
  | .bool _ => "bool"
  | .int _ => "number"
  | .real _ => "number"
  | .str _ => "string"
  | .arr _ => "array"
  | .obj _ => "object"

/-- Result of `json.Marshal` on an `Emoji`: the object with members `id` and
`character`, in field order. -/
def marshalEmoji (e : Emoji) : JSON :=
  .obj [("id", .int e.ID), ("character", .str e.Character)]

/-- Result of `json.Marshal` on a `[]Emoji`: a nil slice is encoded as `null`,
a non-nil slice as the array of its elements. -/
def marshalEmojis : Slice Emoji → JSON
  | none => .null
  | some xs => .arr (xs.map marshalEmoji)

/-! ## strconv.Atoi -/

/-- Go `strconv.Quote` on text made of printable characters: the text between
double quotes, with `"` and `\` escaped by a backslash. -/
def goQuote (s : String) : String :=
  "\"" ++ String.mk (s.data.flatMap fun c =>
    if c = '"' ∨ c = '\\' then ['\\', c] else [c]) ++ "\""

/-- Text of a `*strconv.NumError` of function `Atoi`. -/
def numError (s : String) (what : String) : GoErr :=
  ⟨"strconv.Atoi: parsing " ++ goQuote s ++ ": " ++ what⟩

/-- Digit loop of `strconv.ParseUint(s, 10, 64)`: a byte that is not a decimal
digit is a syntax error, a value above `maxUint64` a range error; whichever
comes first in the string is reported. -/
def parseDigits (s0 : String) : List Char → Nat → Except GoErr Nat
  | [], n => .ok n
  | c :: cs, n =>
    if c.isDigit then
      let n1 := n * 10 + (c.toNat - '0'.toNat)
      if n1 > maxUint64 then .error (numError s0 "value out of range")
      else parseDigits s0 cs n1
    else .error (numError s0 "invalid syntax")

/-- Go `strconv.Atoi`: an optional sign followed by at least one decimal
digit, the value within the range of `int`. -/
def Atoi (s : String) : Except GoErr Int :=
  let body : Bool × List Char :=
    match s.data with
    | '-' :: cs => (true, cs)
    | '+' :: cs => (false, cs)
    | cs => (false, cs)
  match body.2 with
  | [] => .error (numError s "invalid syntax")
  | cs =>
    match parseDigits s cs 0 with
    | .error e => .error e
    | .ok un =>
      if body.1 then
        if (un : Int) > 2 ^ 63 then .error (numError s "value out of range")
        else .ok (-(un : Int))
      else
        if (un : Int) ≥ 2 ^ 63 then .error (numError s "value out of range")
        else .ok (un : Int)

/-! ## encoding/json: decoding a request body into an `Emoji` -/

/-- What `json.NewDecoder(r.Body)` obtains from a request body before the value
is stored: either reading or tokenising fails (`io.EOF` on an empty body, a
`*json.SyntaxError`, a read error), or the first JSON value of the stream. -/
inductive ReqBody where
  | malformed (err : GoErr)
  | value (v : JSON)

/-- Text of a `*json.UnmarshalTypeError` raised while storing into a field of
`Emoji`. -/
def fieldTypeError (what field ty : String) : GoErr :=
  ⟨"json: cannot unmarshal " ++ what ++ " into Go struct field Emoji." ++ field ++
    " of type " ++ ty⟩

/-- Text of a `*json.UnmarshalTypeError` raised for the top-level value. -/
def valueTypeError (what : String) : GoErr :=
  ⟨"json: cannot unmarshal " ++ what ++ " into Go value of type main.Emoji"⟩

/-- Case folding of an object key; the field names `id` and `character` are
matched without regard to letter case. -/
def foldKey (k : String) : String := String.mk (k.data.map Char.toLower)

/-- The decoder's `saveError`: only the first error is kept. -/
def saveError (saved : Option GoErr) (err : GoErr) : Option GoErr :=
  match saved with
  | some e => some e
  | none => some err

/-- Storing a JSON value into the field `ID int`: `null` leaves the field
alone, an integer literal within the range of `int` is stored, anything else is
a type error. -/
def storeID (st : Emoji × Option GoErr) (v : JSON) : Emoji × Option GoErr :=
  match v with
  | .null => st
  | .int n =>
    if minInt ≤ n ∧ n ≤ maxInt then ({ st.1 with ID := n }, st.2)
    else (st.1, saveError st.2 (fieldTypeError ("number " ++ toString n) "id" "int"))
  | .real lit => (st.1, saveError st.2 (fieldTypeError ("number " ++ lit) "id" "int"))
  | other => (st.1, saveError st.2 (fieldTypeError other.kind "id" "int"))

/-- Storing a JSON value into the field `Character string`: `null` leaves the
field alone, a string is stored, anything else is a type error. -/
def storeCharacter (st : Emoji × Option GoErr) (v : JSON) : Emoji × Option GoErr :=
  match v with
  | .null => st
  | .str s => ({ st.1 with Character := s }, st.2)
  | other => (st.1, saveError st.2 (fieldTypeError other.kind "character" "string"))

/-- One member of a JSON object stored into an `Emoji`: members whose key is
neither field are skipped. -/
def storeMember (st : Emoji × Option GoErr) (m : String × JSON) : Emoji × Option GoErr :=
  if foldKey m.1 = "id" then storeID st m.2
  else if foldKey m.1 = "character" then storeCharacter st m.2
  else st

/-- Storing a JSON value into `var emoji Emoji` (zero value `{0, ""}`), as
`json.Unmarshal` does: `null` is accepted and changes nothing, an object is
stored member by member in order, every other value is a type error. -/
def unmarshalEmoji (v : JSON) : Except GoErr Emoji :=
  match v with
  | .null => .ok ⟨0, ""⟩
  | .obj members =>
    match members.foldl storeMember (⟨0, ""⟩, none) with
    | (_, some err) => .error err
    | (emoji, none) => .ok emoji
  | other => .error (valueTypeError other.kind)

/-- The call `json.NewDecoder(r.Body).Decode(&emoji)`. -/
def decodeEmoji : ReqBody → Except GoErr Emoji
  | .malformed err => .error err
  | .value v => unmarshalEmoji v

/-- Whether storing this object member into an `Emoji` raises a type error:
an `id` member that is neither `null` nor an integer literal within `int`, or a
`character` member that is neither `null` nor a string. -/
def badMember (m : String × JSON) : Bool :=
  if foldKey m.1 = "id" then
    match m.2 with
    | .null => false
    | .int n => !(decide (minInt ≤ n ∧ n ≤ maxInt))
    | _ => true
  else if foldKey m.1 = "character" then
    match m.2 with
    | .null => false
    | .str _ => false
    | _ => true
  else false

/-- The request bodies `Decode` reports an error for: unreadable bodies, values
that are neither `null` nor an object, and objects holding a bad member. -/
def rejected : ReqBody → Bool
  | .malformed _ => true
  | .value .null => false
  | .value (.obj members) => members.any badMember
  | .value _ => true

/-! ## net/http -/

/-- Constant `http.StatusOK`. -/
def StatusOK : Nat := 200
/-- Constant `http.StatusCreated`. -/
def StatusCreated : Nat := 201
/-- Constant `http.StatusNoContent`. -/
def StatusNoContent : Nat := 204
/-- Constant `http.StatusBadRequest`. -/
def StatusBadRequest : Nat := 400
/-- Constant `http.StatusNotFound`. -/
def StatusNotFound : Nat := 404
/-- Constant `http.StatusMethodNotAllowed`. -/
def StatusMethodNotAllowed : Nat := 405
/-- Constant `http.StatusInternalServerError`. -/
def StatusInternalServerError : Nat := 500

/-- One write to the response body: literal text, or the JSON text of a value
followed by a newline (what `Encoder.Encode` writes). -/
inductive Chunk where
  | text (s : String)
  | json (v : JSON)

/-- An `http.ResponseWriter` recording the response: the header map, the
status given to the first `WriteHeader` (none while no header was written) and
the body written so far. -/
structure ResponseWriter where
  header : List (String × String)
  status : Option Nat
  body : List Chunk

/-- A fresh response writer, as the server hands it to a handler. -/
def ResponseWriter.new : ResponseWriter := ⟨[], none, []⟩

/-- The call `w.Header().Set(k, v)`; once the header was written, changes to
the map no longer reach the response. -/
def ResponseWriter.SetHeader (w : ResponseWriter) (k v : String) : ResponseWriter :=
  match w.status with
  | some _ => w
  | none => { w with header := w.header.filter (fun kv => kv.1 ≠ k) ++ [(k, v)] }

/-- The call `w.WriteHeader(code)`; only the first call counts. -/
def ResponseWriter.WriteHeader (w : ResponseWriter) (code : Nat) : ResponseWriter :=
  match w.status with
  | some _ => w
  | none => { w with status := some code }

/-- The call `w.Write(..)`; writes the header with status 200 first when no
header was written yet. -/
def ResponseWriter.Write (w : ResponseWriter) (c : Chunk) : ResponseWriter :=
  let w1 := w.WriteHeader StatusOK
  { w1 with body := w1.body ++ [c] }

/-- The status the client receives: 200 when the handler returned without
writing a header. -/
def ResponseWriter.code (w : ResponseWriter) : Nat := w.status.getD StatusOK

/-- Go `http.Error(w, error, code)`: plain-text content type, the status, and
the error text followed by a newline as body. -/
def httpError (w : ResponseWriter) (error : String) (code : Nat) : ResponseWriter :=
  let w := w.SetHeader "Content-Type" "text/plain; charset=utf-8"
  let w := w.SetHeader "X-Content-Type-Options" "nosniff"
  let w := w.WriteHeader code
  w.Write (.text (error ++ "\n"))

/-- The answer `http.Error(w, msg, code)` leaves behind: the status, the
plain-text content type, and the message followed by a newline as whole body. -/
def ResponseWriter.isError (w : ResponseWriter) (code : Nat) (msg : String) : Prop :=
  w.code = code ∧ ("Content-Type", "text/plain; charset=utf-8") ∈ w.header ∧
    w.body = [Chunk.text (msg ++ "\n")]

/-- The call `json.NewEncoder(w).Encode(v)` on an already marshalled value; the
recorder accepts every write, so no error is returned. -/
def encode (w : ResponseWriter) (v : JSON) : ResponseWriter × Option GoErr :=
  (w.Write (.json v), none)

/-- An incoming `*http.Request`: method, URL path, what the JSON decoder reads
from the body, and the route variables `mux.Vars(r)` set by the router. -/
structure Request where
  Method : String
  Path : String
  Body : ReqBody
  Vars : List (String × String)

/-- Indexing the map `mux.Vars(r)`: a missing key yields the empty string. -/
def lookupVar : List (String × String) → String → String
  | [], _ => ""
  | (k, v) :: rest, name => if k = name then v else lookupVar rest name

/-- The slice the loop of `getEmojis` has built when every scan succeeded: the
nil slice for no rows, the rows in order otherwise. -/
def collect (rows : List Emoji) : Slice Emoji := rows.foldl goAppend none

/-- The writer `deleteEmoji` holds after setting its three CORS headers. -/
def corsWriter : ResponseWriter :=
  ⟨[("Access-Control-Allow-Origin", "http://localhost:3000"),
    ("Access-Control-Allow-Methods", "DELETE, OPTIONS"),
    ("Access-Control-Allow-Headers", "*")], none, []⟩

/-! ## The database behind `db *sql.DB` -/

/-- The three statements of `main.go`:
`SELECT id, character FROM emojis`,
`INSERT INTO emojis (character) VALUES ($1)` and
`DELETE FROM emojis WHERE id = $1`, with their arguments. -/
inductive Stmt where
  | select
  | insert (character : String)
  | delete (id : Int)
  deriving DecidableEq

/-- The state reached through the global `db`: the rows of table `emojis` in
the order a `SELECT` delivers them, and the statements issued so far. -/
structure DB where
  rows : List Emoji
  log : List Stmt

/-- How the database and driver react to the statement of one request: the
error returned by `db.Query` / `db.Exec` (if any), the error `rows.Scan`
returns at a given row index (if any), the error returned by
`result.RowsAffected` (if any), and the id the database assigns to a row it
inserts. -/
structure Env where
  stmtErr : Option GoErr
  scanErr : Nat → Option GoErr
  rowsAffectedErr : Option GoErr
  newID : Int

/-- A database that executes the statement without any failure. -/
def Env.healthy (newID : Int) : Env := ⟨none, fun _ => none, none, newID⟩

/-- An `sql.Result`: the number of rows the statement affected. -/
structure Result where
  affected : Nat

/-- The ids stored in the table. -/
def DB.ids (db : DB) : List Int := db.rows.map Emoji.ID

/-- What `rows.Next()` / `rows.Scan` deliver for the rows from index `i` on. -/
def scanRows (scanErr : Nat → Option GoErr) : Nat → List Emoji → List (Except GoErr Emoji)
  | _, [] => []
  | i, e :: rest =>
    (match scanErr i with
      | some err => .error err
      | none => .ok e) :: scanRows scanErr (i + 1) rest

/-- Modelled from the spec: the database server and its schema are not part of
the source.  `db.Query("SELECT id, character FROM emojis")` logs the statement
and, unless it fails, delivers every row of the table. -/
def DB.Query (db : DB) (env : Env) : Except GoErr (List (Except GoErr Emoji)) × DB :=
  let db1 : DB := { db with log := db.log ++ [Stmt.select] }
  match env.stmtErr with
  | some err => (.error err, db1)
  | none => (.ok (scanRows env.scanErr 0 db.rows), db1)

/-- Text of the error the driver reports for a duplicate primary key. -/
def uniqueViolation : GoErr :=
  ⟨"pq: duplicate key value violates unique constraint \"emojis_pkey\""⟩

/-- Modelled from the spec: the database server and its schema
(`emojis(id PRIMARY KEY, character TEXT)`, id assigned by the database) are
not part of the source.  `db.Exec("INSERT INTO emojis (character) VALUES ($1)", c)`
logs the statement; a failed statement changes nothing; the primary key rejects
an id already in the table; otherwise one row with the assigned id is added. -/
def DB.ExecInsert (db : DB) (env : Env) (c : String) : Except GoErr Result × DB :=
  let db1 : DB := { db with log := db.log ++ [Stmt.insert c] }
  match env.stmtErr with
  | some err => (.error err, db1)
  | none =>
    if env.newID ∈ db.ids then (.error uniqueViolation, db1)
    else (.ok ⟨1⟩, { db1 with rows := db.rows ++ [⟨env.newID, c⟩] })

/-- Modelled from the spec: the database server is not part of the source.
`db.Exec("DELETE FROM emojis WHERE id = $1", id)` logs the statement; a failed
statement changes nothing; otherwise every row with that id is removed and
their number is the affected-row count. -/
def DB.ExecDelete (db : DB) (env : Env) (id : Int) : Except GoErr Result × DB :=
  let db1 : DB := { db with log := db.log ++ [Stmt.delete id] }
  match env.stmtErr with
  | some err => (.error err, db1)
  | none =>
    (.ok ⟨db.rows.countP (fun e => e.ID = id)⟩,
      { db1 with rows := db.rows.filter (fun e => e.ID ≠ id) })

/-- The call `result.RowsAffected()`. -/
def Result.RowsAffected (res : Result) (env : Env) : Except GoErr Nat :=
  match env.rowsAffectedErr with
  | some err => .error err
  | none => .ok res.affected

/-! ## The handlers of `main.go` -/

/-- The loop `for rows.Next() { rows.Scan(..); emojis = append(emojis, emoji) }`
of `getEmojis`, started with `var emojis []Emoji` (the nil slice): the first
failing scan ends it with that error. -/
def scanLoop : List (Except GoErr Emoji) → Slice Emoji → Except GoErr (Slice Emoji)
  | [], emojis => .ok emojis
  | .error err :: _, _ => .error err
  | .ok emoji :: rest, emojis => scanLoop rest (goAppend emojis emoji)

/-- Handler `getEmojis` (main.go lines 58-83). -/
def getEmojis (env : Env) (db : DB) (w : ResponseWriter) (_r : Request) :
    ResponseWriter × DB :=
  match db.Query env with
  | (.error err, db) => (httpError w err.Error StatusInternalServerError, db)
  | (.ok rows, db) =>
    match scanLoop rows none with
    | .error err => (httpError w err.Error StatusInternalServerError, db)
    | .ok emojis =>
      let w := w.SetHeader "Content-Type" "application/json"
      match encode w (marshalEmojis emojis) with
      | (w, some err) => (httpError w err.Error StatusInternalServerError, db)
      | (w, none) => (w, db)

/-- Handler `addEmoji` (main.go lines 85-100). -/
def addEmoji (env : Env) (db : DB) (w : ResponseWriter) (r : Request) :
    ResponseWriter × DB :=
  match decodeEmoji r.Body with
  | .error err => (httpError w err.Error StatusBadRequest, db)
  | .ok emoji =>
    match db.ExecInsert env emoji.Character with
    | (.error err, db) => (httpError w err.Error StatusInternalServerError, db)
    | (.ok _, db) => (w.WriteHeader StatusCreated, db)

/-- Handler `deleteEmoji` (main.go lines 102-142). -/
def deleteEmoji (env : Env) (db : DB) (w : ResponseWriter) (r : Request) :
    ResponseWriter × DB :=
  let w := w.SetHeader "Access-Control-Allow-Origin" "http://localhost:3000"
  let w := w.SetHeader "Access-Control-Allow-Methods" "DELETE, OPTIONS"
  let w := w.SetHeader "Access-Control-Allow-Headers" "*"
  if r.Method = "OPTIONS" then (w.WriteHeader StatusOK, db)
  else
    match Atoi (lookupVar r.Vars "id") with
    | .error _ => (httpError w "Invalid ID" StatusBadRequest, db)
    | .ok id =>
      match db.ExecDelete env id with
      | (.error err, db) => (httpError w err.Error StatusInternalServerError, db)
      | (.ok result, db) =>
        match result.RowsAffected env with
        | .error err => (httpError w err.Error StatusInternalServerError, db)
        | .ok rowsAffected =>
          if rowsAffected = 0 then (httpError w "Emoji not found" StatusNotFound, db)
          else (w.WriteHeader StatusNoContent, db)

/-! ## The router built in `main` -/

/-- The handler functions a route can name. -/
inductive HandlerFunc where
  | getEmojis
  | addEmoji
  | deleteEmoji
  deriving DecidableEq

/-- Running a handler function. -/
def HandlerFunc.run : HandlerFunc → Env → DB → ResponseWriter → Request → ResponseWriter × DB
  | .getEmojis => EmojiDB.getEmojis
  | .addEmoji => EmojiDB.addEmoji
  | .deleteEmoji => EmojiDB.deleteEmoji

/-- A gorilla/mux path template of the two shapes used in `main`: a literal
path, or a literal part followed by one variable `{name}` as last segment. -/
inductive Template where
  | literal (path : String)
  | variable (lead : String) (name : String)

/-- Removes `lead` from the front of `path`, if it is there. -/
def dropLead : List Char → List Char → Option (List Char)
  | [], path => some path
  | _ :: _, [] => none
  | c :: lead, d :: path => if c = d then dropLead lead path else none

/-- Matching a URL path (in cleaned form) against a template: a variable stands
for one non-empty segment without `/`; the variables bound are returned. -/
def Template.matchPath (t : Template) (path : String) : Option (List (String × String)) :=
  match t with
  | .literal p => if path = p then some [] else none
  | .variable lead name =>
    match dropLead lead.data path.data with
    | none => none
    | some seg =>
      if seg ≠ [] ∧ '/' ∉ seg then some [(name, String.mk seg)] else none

/-- A route registered by `r.HandleFunc(template, handler).Methods(methods...)`. -/
structure Route where
  template : Template
  handler : HandlerFunc
  methods : List String

/-- The routes registered in `main` (lines 39-41), in order. -/
def routes : List Route :=
  [ ⟨.literal "/emojis", .getEmojis, ["GET"]⟩,
    ⟨.literal "/emojis", .addEmoji, ["POST"]⟩,
    ⟨.variable "/emojis/" "id", .deleteEmoji, ["DELETE"]⟩ ]

/-- Outcome of matching a request against the routes. -/
inductive Match where
  | found (h : HandlerFunc) (vars : List (String × String))
  | methodMismatch
  | notFound
  deriving DecidableEq

/-- The matching loop of `mux.Router`: the first route whose path and method
both match wins; when only paths matched, the mismatch of the method is
remembered. -/
def matchRoutes : List Route → String → String → Bool → Match
  | [], _, _, mismatch => if mismatch then .methodMismatch else .notFound
  | rt :: rest, method, path, mismatch =>
    match rt.template.matchPath path with
    | none => matchRoutes rest method path mismatch
    | some vars =>
      if method ∈ rt.methods then .found rt.handler vars
      else matchRoutes rest method path true

/-- The call `r.ServeHTTP(w, req)` of the router built in `main`: the matching
handler runs with the route variables set; a path that matches only with another
method is answered 405, an unknown path with `http.NotFound`. -/
def ServeHTTP (env : Env) (db : DB) (w : ResponseWriter) (r : Request) :
    ResponseWriter × DB :=
  match matchRoutes routes r.Method r.Path false with
  | .found h vars => h.run env db w { r with Vars := vars }
  | .methodMismatch => (w.WriteHeader StatusMethodNotAllowed, db)
  | .notFound => (httpError w "404 page not found" StatusNotFound, db)


/-! ## Facts about the response recorder -/

theorem httpError_new (msg : String) (code : Nat) :
    httpError ResponseWriter.new msg code =
      ⟨[("Content-Type", "text/plain; charset=utf-8"), ("X-Content-Type-Options", "nosniff")],
        some code, [Chunk.text (msg ++ "\n")]⟩ := by
  simp [httpError, ResponseWriter.new, ResponseWriter.SetHeader, ResponseWriter.WriteHeader,
    ResponseWriter.Write]

theorem corsWriter_eq :
    ((ResponseWriter.new.SetHeader "Access-Control-Allow-Origin" "http://localhost:3000").SetHeader
      "Access-Control-Allow-Methods" "DELETE, OPTIONS").SetHeader
      "Access-Control-Allow-Headers" "*" = corsWriter := by
  simp [corsWriter, ResponseWriter.new, ResponseWriter.SetHeader]

theorem httpError_cors (msg : String) (code : Nat) :
    httpError corsWriter msg code =
      ⟨[("Access-Control-Allow-Origin", "http://localhost:3000"),
        ("Access-Control-Allow-Methods", "DELETE, OPTIONS"),
        ("Access-Control-Allow-Headers", "*"),
        ("Content-Type", "text/plain; charset=utf-8"), ("X-Content-Type-Options", "nosniff")],
        some code, [Chunk.text (msg ++ "\n")]⟩ := by
  simp [httpError, corsWriter, ResponseWriter.SetHeader, ResponseWriter.WriteHeader,
    ResponseWriter.Write]


/-! ## Equations for `deleteEmoji`, one per path -/

theorem deleteEmoji_options (env : Env) (db : DB) (r : Request) (hm : r.Method = "OPTIONS") :
    deleteEmoji env db ResponseWriter.new r = ({ corsWriter with status := some StatusOK }, db) := by
  simp [deleteEmoji, corsWriter_eq, hm, ResponseWriter.WriteHeader, corsWriter]

theorem deleteEmoji_bad_id (env : Env) (db : DB) (r : Request) (err : GoErr)
    (hm : r.Method ≠ "OPTIONS") (hid : Atoi (lookupVar r.Vars "id") = .error err) :
    deleteEmoji env db ResponseWriter.new r =
      (httpError corsWriter "Invalid ID" StatusBadRequest, db) := by
  simp [deleteEmoji, corsWriter_eq, hm, hid]

theorem deleteEmoji_exec_failed (env : Env) (db : DB) (r : Request) (id : Int) (err : GoErr)
    (hm : r.Method ≠ "OPTIONS") (hid : Atoi (lookupVar r.Vars "id") = .ok id)
    (he : env.stmtErr = some err) :
    deleteEmoji env db ResponseWriter.new r =
      (httpError corsWriter err.Error StatusInternalServerError,
        { db with log := db.log ++ [Stmt.delete id] }) := by
  simp [deleteEmoji, corsWriter_eq, hm, hid, DB.ExecDelete, he]

theorem deleteEmoji_count_failed (env : Env) (db : DB) (r : Request) (id : Int) (err : GoErr)
    (hm : r.Method ≠ "OPTIONS") (hid : Atoi (lookupVar r.Vars "id") = .ok id)
    (he : env.stmtErr = none) (hr : env.rowsAffectedErr = some err) :
    deleteEmoji env db ResponseWriter.new r =
      (httpError corsWriter err.Error StatusInternalServerError,
        ⟨db.rows.filter (fun e => e.ID ≠ id), db.log ++ [Stmt.delete id]⟩) := by
  simp [deleteEmoji, corsWriter_eq, hm, hid, DB.ExecDelete, he, Result.RowsAffected, hr]

theorem deleteEmoji_none_affected (env : Env) (db : DB) (r : Request) (id : Int)
    (hm : r.Method ≠ "OPTIONS") (hid : Atoi (lookupVar r.Vars "id") = .ok id)
    (he : env.stmtErr = none) (hr : env.rowsAffectedErr = none)
    (hn : db.rows.countP (fun e => e.ID = id) = 0) :
    deleteEmoji env db ResponseWriter.new r =
      (httpError corsWriter "Emoji not found" StatusNotFound,
        ⟨db.rows.filter (fun e => e.ID ≠ id), db.log ++ [Stmt.delete id]⟩) := by
  simp only [deleteEmoji, corsWriter_eq, hm, hid, DB.ExecDelete, he, Result.RowsAffected, hr, hn]
  simp

theorem deleteEmoji_some_affected (env : Env) (db : DB) (r : Request) (id : Int)
    (hm : r.Method ≠ "OPTIONS") (hid : Atoi (lookupVar r.Vars "id") = .ok id)
    (he : env.stmtErr = none) (hr : env.rowsAffectedErr = none)
    (hn : 0 < db.rows.countP (fun e => e.ID = id)) :
    deleteEmoji env db ResponseWriter.new r =
      ({ corsWriter with status := some StatusNoContent },
        ⟨db.rows.filter (fun e => e.ID ≠ id), db.log ++ [Stmt.delete id]⟩) := by
  have hn0 : db.rows.countP (fun e => e.ID = id) ≠ 0 := Nat.pos_iff_ne_zero.mp hn
  simp only [deleteEmoji, corsWriter_eq, hm, hid, DB.ExecDelete, he, Result.RowsAffected, hr]
  simp [hn0, ResponseWriter.WriteHeader, corsWriter]


theorem method_delete_ne_options (r : Request) (hm : r.Method = "DELETE") :
    r.Method ≠ "OPTIONS" := by
  rw [hm]; decide

theorem countP_eq_zero_of_absent (db : DB) (id : Int) (h : id ∉ db.ids) :
    db.rows.countP (fun e => e.ID = id) = 0 := by
  rw [List.countP_eq_zero]
  intro e he
  simp only [decide_eq_true_eq]
  intro heq
  exact h (by simpa [DB.ids] using ⟨e, he, heq⟩)

theorem filter_absent (db : DB) (id : Int) (h : id ∉ db.ids) :
    db.rows.filter (fun e => e.ID ≠ id) = db.rows := by
  rw [List.filter_eq_self]
  intro e he
  simp only [ne_eq, decide_not, Bool.not_eq_eq_eq_not, Bool.not_true, decide_eq_false_iff_not]
  intro heq
  exact h (by simpa [DB.ids] using ⟨e, he, heq⟩)

theorem deleteEmoji_parsed_code (env : Env) (db : DB) (r : Request) (id : Int)
    (hne : r.Method ≠ "OPTIONS") (hid : Atoi (lookupVar r.Vars "id") = .ok id) :
    (deleteEmoji env db ResponseWriter.new r).1.code = 500 ∨
      (deleteEmoji env db ResponseWriter.new r).1.code = 404 ∨
      (deleteEmoji env db ResponseWriter.new r).1.code = 204 := by
  cases he : env.stmtErr with
  | some err =>
    rw [deleteEmoji_exec_failed env db r id err hne hid he, httpError_cors]
    exact Or.inl rfl
  | none =>
    cases hr : env.rowsAffectedErr with
    | some err =>
      rw [deleteEmoji_count_failed env db r id err hne hid he hr, httpError_cors]
      exact Or.inl rfl
    | none =>
      rcases Nat.eq_zero_or_pos (db.rows.countP (fun e => e.ID = id)) with hn | hn
      · rw [deleteEmoji_none_affected env db r id hne hid he hr hn, httpError_cors]
        exact Or.inr (Or.inl rfl)
      · rw [deleteEmoji_some_affected env db r id hne hid he hr hn]
        exact Or.inr (Or.inr rfl)

/-- C1: a DELETE request whose id parses gets exactly one of three answers from
`deleteEmoji`: 500 with the error text (followed by the newline `http.Error`
adds) when the delete statement or reading its affected-row count fails, 404
when no row was affected, 204 with an empty body when at least one row was
affected. -/
theorem deleteEmoji_three_outcomes (env : Env) (db : DB) (r : Request) (id : Int)
    (hm : r.Method = "DELETE") (hid : Atoi (lookupVar r.Vars "id") = .ok id) :
    (∀ err, env.stmtErr = some err →
      (deleteEmoji env db ResponseWriter.new r).1.code = 500 ∧
      (deleteEmoji env db ResponseWriter.new r).1.body = [Chunk.text (err.Error ++ "\n")]) ∧
    (∀ err, env.stmtErr = none → env.rowsAffectedErr = some err →
      (deleteEmoji env db ResponseWriter.new r).1.code = 500 ∧
      (deleteEmoji env db ResponseWriter.new r).1.body = [Chunk.text (err.Error ++ "\n")]) ∧
    (env.stmtErr = none → env.rowsAffectedErr = none →
      db.rows.countP (fun e => e.ID = id) = 0 →
      (deleteEmoji env db ResponseWriter.new r).1.code = 404) ∧
    (env.stmtErr = none → env.rowsAffectedErr = none →
      0 < db.rows.countP (fun e => e.ID = id) →
      (deleteEmoji env db ResponseWriter.new r).1.code = 204 ∧
      (deleteEmoji env db ResponseWriter.new r).1.body = []) ∧
    ((deleteEmoji env db ResponseWriter.new r).1.code = 500 ∨
      (deleteEmoji env db ResponseWriter.new r).1.code = 404 ∨
      (deleteEmoji env db ResponseWriter.new r).1.code = 204) := by
  have hne := method_delete_ne_options r hm
  refine ⟨?_, ?_, ?_, ?_, ?_⟩
  · intro err he
    rw [deleteEmoji_exec_failed env db r id err hne hid he, httpError_cors]
    exact ⟨rfl, rfl⟩
  · intro err he hr
    rw [deleteEmoji_count_failed env db r id err hne hid he hr, httpError_cors]
    exact ⟨rfl, rfl⟩
  · intro he hr hn
    rw [deleteEmoji_none_affected env db r id hne hid he hr hn, httpError_cors]
    rfl
  · intro he hr hn
    rw [deleteEmoji_some_affected env db r id hne hid he hr hn]
    exact ⟨rfl, rfl⟩
  · exact deleteEmoji_parsed_code env db r id hne hid

/-- Witness for C1: deleting id 1 from a table holding it, on a healthy database. -/
theorem deleteEmoji_three_outcomes_witness :
    Atoi (lookupVar [("id", "1")] "id") = .ok 1 ∧
    (deleteEmoji (Env.healthy 0) ⟨[⟨1, "a"⟩, ⟨2, "b"⟩], []⟩ ResponseWriter.new
        ⟨"DELETE", "/emojis/1", .malformed ⟨"EOF"⟩, [("id", "1")]⟩).1.code = 204 ∧
    (deleteEmoji (Env.healthy 0) ⟨[⟨1, "a"⟩, ⟨2, "b"⟩], []⟩ ResponseWriter.new
        ⟨"DELETE", "/emojis/1", .malformed ⟨"EOF"⟩, [("id", "1")]⟩).1.body = [] :=
  ⟨by decide,
    (deleteEmoji_three_outcomes (Env.healthy 0) ⟨[⟨1, "a"⟩, ⟨2, "b"⟩], []⟩
      ⟨"DELETE", "/emojis/1", .malformed ⟨"EOF"⟩, [("id", "1")]⟩ 1 rfl (by decide)).2.2.2.1
      rfl rfl (by decide)⟩

/-- C6: on a DELETE request whose id segment does not parse as an integer
(such as `abc`), `deleteEmoji` answers 400 with `Invalid ID` and leaves the
database untouched: no statement is issued, no row removed.  Conversely it
answers 400 only when the segment fails to parse. -/
theorem deleteEmoji_invalid_id (env : Env) (db : DB) (r : Request)
    (hm : r.Method = "DELETE") :
    ((∃ err, Atoi (lookupVar r.Vars "id") = .error err) →
      (deleteEmoji env db ResponseWriter.new r).1.code = 400 ∧
      (deleteEmoji env db ResponseWriter.new r).1.body = [Chunk.text "Invalid ID\n"] ∧
      (deleteEmoji env db ResponseWriter.new r).2 = db) ∧
    ((deleteEmoji env db ResponseWriter.new r).1.code = 400 →
      ∃ err, Atoi (lookupVar r.Vars "id") = .error err) ∧
    (∃ err, Atoi "abc" = .error err) := by
  have hne := method_delete_ne_options r hm
  refine ⟨?_, ?_, ⟨_, rfl⟩⟩
  · rintro ⟨err, hid⟩
    rw [deleteEmoji_bad_id env db r err hne hid, httpError_cors]
    exact ⟨rfl, rfl, rfl⟩
  · intro hcode
    cases hid : Atoi (lookupVar r.Vars "id") with
    | error err => exact ⟨err, rfl⟩
    | ok id =>
      rcases deleteEmoji_parsed_code env db r id hne hid with h | h | h <;>
        rw [h] at hcode <;> exact absurd hcode (by decide)

/-- Witness for C6: the request `DELETE /emojis/abc`. -/
theorem deleteEmoji_invalid_id_witness :
    (∃ err, Atoi (lookupVar [("id", "abc")] "id") = .error err) ∧
    (deleteEmoji (Env.healthy 0) ⟨[⟨1, "a"⟩], []⟩ ResponseWriter.new
        ⟨"DELETE", "/emojis/abc", .malformed ⟨"EOF"⟩, [("id", "abc")]⟩).1.code = 400 ∧
    (deleteEmoji (Env.healthy 0) ⟨[⟨1, "a"⟩], []⟩ ResponseWriter.new
        ⟨"DELETE", "/emojis/abc", .malformed ⟨"EOF"⟩, [("id", "abc")]⟩).2.log = [] :=
  have h := (deleteEmoji_invalid_id (Env.healthy 0) ⟨[⟨1, "a"⟩], []⟩
      ⟨"DELETE", "/emojis/abc", .malformed ⟨"EOF"⟩, [("id", "abc")]⟩ rfl).1 ⟨_, rfl⟩
  ⟨⟨_, rfl⟩, h.1, by rw [h.2.2]⟩


/-! ## Facts about `getEmojis` -/

theorem scanRows_ok (scanErr : Nat → Option GoErr) (rows : List Emoji) (i : Nat)
    (h : ∀ j, j < rows.length → scanErr (i + j) = none) :
    scanRows scanErr i rows = rows.map Except.ok := by
  induction rows generalizing i with
  | nil => rfl
  | cons e rest ih =>
    have h0 : scanErr i = none := by simpa using h 0 (by simp)
    have hrest : ∀ j, j < rest.length → scanErr (i + 1 + j) = none := by
      intro j hj
      have := h (j + 1) (by simpa using hj)
      rwa [show i + 1 + j = i + (j + 1) by omega]
    simp [scanRows, h0, ih (i + 1) hrest]

theorem scanLoop_ok (rows : List Emoji) (acc : Slice Emoji) :
    scanLoop (rows.map Except.ok) acc = .ok (rows.foldl goAppend acc) := by
  induction rows generalizing acc with
  | nil => rfl
  | cons e rest ih => simp [scanLoop, ih]

theorem foldl_goAppend_some (rows : List Emoji) (xs : List Emoji) :
    rows.foldl goAppend (some xs) = some (xs ++ rows) := by
  induction rows generalizing xs with
  | nil => simp
  | cons e rest ih => simp [goAppend, ih]

theorem collect_nil : collect [] = none := rfl

theorem collect_cons (e : Emoji) (rest : List Emoji) : collect (e :: rest) = some (e :: rest) := by
  simp [collect, goAppend, foldl_goAppend_some]

theorem elems_collect (rows : List Emoji) : (collect rows).elems = rows := by
  cases rows with
  | nil => rfl
  | cons e rest => rw [collect_cons]; rfl

theorem getEmojis_ok (env : Env) (db : DB) (r : Request)
    (hq : env.stmtErr = none) (hs : ∀ i, i < db.rows.length → env.scanErr i = none) :
    getEmojis env db ResponseWriter.new r =
      (⟨[("Content-Type", "application/json")], some 200,
          [Chunk.json (marshalEmojis (collect db.rows))]⟩,
        { db with log := db.log ++ [Stmt.select] }) := by
  have hrows : scanRows env.scanErr 0 db.rows = db.rows.map Except.ok :=
    scanRows_ok env.scanErr db.rows 0 (by simpa using hs)
  simp [getEmojis, DB.Query, hq, hrows, scanLoop_ok, collect, encode, ResponseWriter.new,
    ResponseWriter.SetHeader, ResponseWriter.Write, ResponseWriter.WriteHeader, StatusOK]

theorem getEmojis_query_failed (env : Env) (db : DB) (r : Request) (err : GoErr)
    (hq : env.stmtErr = some err) :
    getEmojis env db ResponseWriter.new r =
      (httpError ResponseWriter.new err.Error StatusInternalServerError,
        { db with log := db.log ++ [Stmt.select] }) := by
  simp [getEmojis, DB.Query, hq]


theorem getEmojis_resp_congr (env : Env) (db1 db2 : DB) (w : ResponseWriter) (r1 r2 : Request)
    (h : db1.rows = db2.rows) :
    (getEmojis env db1 w r1).1 = (getEmojis env db2 w r2).1 := by
  unfold getEmojis DB.Query
  rw [h]
  cases env.stmtErr with
  | some err => rfl
  | none =>
    simp only
    cases scanLoop (scanRows env.scanErr 0 db2.rows) none with
    | error err => rfl
    | ok emojis => rfl

theorem getEmojis_rows_array (env : Env) (db : DB) (r : Request)
    (hq : env.stmtErr = none) (hs : ∀ i, i < db.rows.length → env.scanErr i = none)
    (hne : db.rows ≠ []) :
    (getEmojis env db ResponseWriter.new r).1 =
      ⟨[("Content-Type", "application/json")], some 200,
        [Chunk.json (JSON.arr (db.rows.map marshalEmoji))]⟩ := by
  rw [getEmojis_ok env db r hq hs]
  cases hrows : db.rows with
  | nil => exact absurd hrows hne
  | cons e rest => rw [collect_cons]; rfl

/-- C7 at the empty table: with a healthy database `getEmojis` answers 200 with
content type `application/json`, but the body is the JSON text `null` (the nil
slice `var emojis []Emoji` is encoded as it stands), which is not a JSON array. -/
theorem getEmojis_empty_table_null (log : List Stmt) (r : Request) (newID : Int) :
    (getEmojis (Env.healthy newID) ⟨[], log⟩ ResponseWriter.new r).1 =
      ⟨[("Content-Type", "application/json")], some 200, [Chunk.json JSON.null]⟩ ∧
    ∀ xs, (getEmojis (Env.healthy newID) ⟨[], log⟩ ResponseWriter.new r).1.body ≠
      [Chunk.json (JSON.arr xs)] := by
  have h : (getEmojis (Env.healthy newID) ⟨[], log⟩ ResponseWriter.new r).1 =
      ⟨[("Content-Type", "application/json")], some 200, [Chunk.json JSON.null]⟩ := by
    rw [getEmojis_ok (Env.healthy newID) ⟨[], log⟩ r rfl (fun _ _ => rfl)]
    rfl
  refine ⟨h, ?_⟩
  intro xs hxs
  rw [h] at hxs
  simp at hxs

/-- C4: for an id that parses and is the id of no row, `deleteEmoji` leaves the
rows as they were, so `getEmojis` answers the same before and after, and it
answers 404 whenever the database executes the delete statement and reports its
affected-row count. -/
theorem deleteEmoji_absent_id (env : Env) (db : DB) (r : Request) (id : Int)
    (hm : r.Method = "DELETE") (hid : Atoi (lookupVar r.Vars "id") = .ok id)
    (habs : id ∉ db.ids) :
    (deleteEmoji env db ResponseWriter.new r).2.rows = db.rows ∧
    (∀ env2 r2,
      (getEmojis env2 (deleteEmoji env db ResponseWriter.new r).2 ResponseWriter.new r2).1 =
        (getEmojis env2 db ResponseWriter.new r2).1) ∧
    (env.stmtErr = none → env.rowsAffectedErr = none →
      (deleteEmoji env db ResponseWriter.new r).1.code = 404 ∧
      (deleteEmoji env db ResponseWriter.new r).1.body = [Chunk.text "Emoji not found\n"]) := by
  have hne := method_delete_ne_options r hm
  have hn := countP_eq_zero_of_absent db id habs
  have hrows : (deleteEmoji env db ResponseWriter.new r).2.rows = db.rows := by
    cases he : env.stmtErr with
    | some err => rw [deleteEmoji_exec_failed env db r id err hne hid he]
    | none =>
      cases hr : env.rowsAffectedErr with
      | some err =>
        rw [deleteEmoji_count_failed env db r id err hne hid he hr]
        exact filter_absent db id habs
      | none =>
        rw [deleteEmoji_none_affected env db r id hne hid he hr hn]
        exact filter_absent db id habs
  refine ⟨hrows, ?_, ?_⟩
  · intro env2 r2
    exact getEmojis_resp_congr env2 _ db _ r2 r2 hrows
  · intro he hr
    rw [deleteEmoji_none_affected env db r id hne hid he hr hn, httpError_cors]
    exact ⟨rfl, rfl⟩

/-- Witness for C4: `DELETE /emojis/7` on a table holding ids 1 and 2. -/
theorem deleteEmoji_absent_id_witness :
    Atoi (lookupVar [("id", "7")] "id") = .ok 7 ∧
    (7 : Int) ∉ DB.ids ⟨[⟨1, "a"⟩, ⟨2, "b"⟩], []⟩ ∧
    (deleteEmoji (Env.healthy 0) ⟨[⟨1, "a"⟩, ⟨2, "b"⟩], []⟩ ResponseWriter.new
        ⟨"DELETE", "/emojis/7", .malformed ⟨"EOF"⟩, [("id", "7")]⟩).2.rows =
      [⟨1, "a"⟩, ⟨2, "b"⟩] ∧
    (deleteEmoji (Env.healthy 0) ⟨[⟨1, "a"⟩, ⟨2, "b"⟩], []⟩ ResponseWriter.new
        ⟨"DELETE", "/emojis/7", .malformed ⟨"EOF"⟩, [("id", "7")]⟩).1.code = 404 :=
  have h := deleteEmoji_absent_id (Env.healthy 0) ⟨[⟨1, "a"⟩, ⟨2, "b"⟩], []⟩
      ⟨"DELETE", "/emojis/7", .malformed ⟨"EOF"⟩, [("id", "7")]⟩ 7 rfl (by decide) (by decide)
  ⟨by decide, by decide, h.1, (h.2.2 rfl rfl).1⟩


/-! ## Equations for `addEmoji`, one per path -/

theorem addEmoji_decode_failed (env : Env) (db : DB) (r : Request) (err : GoErr)
    (hdec : decodeEmoji r.Body = .error err) :
    addEmoji env db ResponseWriter.new r =
      (httpError ResponseWriter.new err.Error StatusBadRequest, db) := by
  simp [addEmoji, hdec]

theorem addEmoji_exec_failed (env : Env) (db : DB) (r : Request) (emoji : Emoji) (err : GoErr)
    (hdec : decodeEmoji r.Body = .ok emoji) (he : env.stmtErr = some err) :
    addEmoji env db ResponseWriter.new r =
      (httpError ResponseWriter.new err.Error StatusInternalServerError,
        { db with log := db.log ++ [Stmt.insert emoji.Character] }) := by
  simp [addEmoji, hdec, DB.ExecInsert, he]

theorem addEmoji_duplicate_id (env : Env) (db : DB) (r : Request) (emoji : Emoji)
    (hdec : decodeEmoji r.Body = .ok emoji) (he : env.stmtErr = none)
    (hdup : env.newID ∈ db.ids) :
    addEmoji env db ResponseWriter.new r =
      (httpError ResponseWriter.new uniqueViolation.Error StatusInternalServerError,
        { db with log := db.log ++ [Stmt.insert emoji.Character] }) := by
  simp [addEmoji, hdec, DB.ExecInsert, he, hdup]

theorem addEmoji_inserted (env : Env) (db : DB) (r : Request) (emoji : Emoji)
    (hdec : decodeEmoji r.Body = .ok emoji) (he : env.stmtErr = none)
    (hfresh : env.newID ∉ db.ids) :
    addEmoji env db ResponseWriter.new r =
      (⟨[], some StatusCreated, []⟩,
        ⟨db.rows ++ [⟨env.newID, emoji.Character⟩], db.log ++ [Stmt.insert emoji.Character]⟩) := by
  simp [addEmoji, hdec, DB.ExecInsert, he, hfresh, ResponseWriter.WriteHeader, ResponseWriter.new]

theorem addEmoji_log (env : Env) (db : DB) (r : Request) (emoji : Emoji)
    (hdec : decodeEmoji r.Body = .ok emoji) :
    (addEmoji env db ResponseWriter.new r).2.log = db.log ++ [Stmt.insert emoji.Character] := by
  cases he : env.stmtErr with
  | some err => rw [addEmoji_exec_failed env db r emoji err hdec he]
  | none =>
    by_cases hdup : env.newID ∈ db.ids
    · rw [addEmoji_duplicate_id env db r emoji hdec he hdup]
    · rw [addEmoji_inserted env db r emoji hdec he hdup]

/-- The answer 201 is given exactly when the insert statement succeeded. -/
theorem addEmoji_created_iff (env : Env) (db : DB) (r : Request) (emoji : Emoji)
    (hdec : decodeEmoji r.Body = .ok emoji) :
    (addEmoji env db ResponseWriter.new r).1.code = 201 ↔
      env.stmtErr = none ∧ env.newID ∉ db.ids := by
  cases he : env.stmtErr with
  | some err =>
    rw [addEmoji_exec_failed env db r emoji err hdec he, httpError_new]
    simp [ResponseWriter.code, StatusInternalServerError]
  | none =>
    by_cases hdup : env.newID ∈ db.ids
    · rw [addEmoji_duplicate_id env db r emoji hdec he hdup, httpError_new]
      simp [ResponseWriter.code, StatusInternalServerError, hdup]
    · rw [addEmoji_inserted env db r emoji hdec he hdup]
      simp [ResponseWriter.code, StatusCreated, hdup]

/-! ## Which bodies decode -/

theorem decode_character (c : String) :
    decodeEmoji (.value (.obj [("character", .str c)])) = .ok ⟨0, c⟩ := by
  have hk1 : foldKey "character" ≠ "id" := by decide
  have hk2 : foldKey "character" = "character" := by decide
  simp [decodeEmoji, unmarshalEmoji, storeMember, storeCharacter, hk1, hk2]

theorem decode_id_character (k : Int) (c : String) (hlo : minInt ≤ k) (hhi : k ≤ maxInt) :
    decodeEmoji (.value (.obj [("id", .int k), ("character", .str c)])) = .ok ⟨k, c⟩ := by
  have hk0 : foldKey "id" = "id" := by decide
  have hk1 : foldKey "character" ≠ "id" := by decide
  have hk2 : foldKey "character" = "character" := by decide
  simp [decodeEmoji, unmarshalEmoji, storeMember, storeCharacter, storeID, hk0, hk1, hk2,
    hlo, hhi]


theorem addEmoji_character_only (env : Env) (db : DB) (r1 r2 : Request) (e1 e2 : Emoji)
    (h1 : decodeEmoji r1.Body = .ok e1) (h2 : decodeEmoji r2.Body = .ok e2)
    (hc : e2.Character = e1.Character) :
    addEmoji env db ResponseWriter.new r2 = addEmoji env db ResponseWriter.new r1 := by
  cases he : env.stmtErr with
  | some err =>
    rw [addEmoji_exec_failed env db r1 e1 err h1 he, addEmoji_exec_failed env db r2 e2 err h2 he,
      hc]
  | none =>
    by_cases hdup : env.newID ∈ db.ids
    · rw [addEmoji_duplicate_id env db r1 e1 h1 he hdup,
        addEmoji_duplicate_id env db r2 e2 h2 he hdup, hc]
    · rw [addEmoji_inserted env db r1 e1 h1 he hdup, addEmoji_inserted env db r2 e2 h2 he hdup,
        hc]

/-- C8: for a body that decodes to `emoji`, `addEmoji` issues exactly one
statement, the insert of `emoji.Character`; bodies that decode to the same
character are handled alike whatever id they carry; when the insert succeeds
the answer is 201 with an empty body and the new row holds that character under
the id the database assigned.  Every string is accepted as character: the body
with member `character` set to `c`, with or without an `id` member, decodes to
character `c`. -/
theorem addEmoji_inserts_character (env : Env) (db : DB) (r : Request) (emoji : Emoji)
    (hdec : decodeEmoji r.Body = .ok emoji) :
    (addEmoji env db ResponseWriter.new r).2.log = db.log ++ [Stmt.insert emoji.Character] ∧
    (∀ r2 emoji2, decodeEmoji r2.Body = .ok emoji2 → emoji2.Character = emoji.Character →
      addEmoji env db ResponseWriter.new r2 = addEmoji env db ResponseWriter.new r) ∧
    (env.stmtErr = none → env.newID ∉ db.ids →
      (addEmoji env db ResponseWriter.new r).1.code = 201 ∧
      (addEmoji env db ResponseWriter.new r).1.body = [] ∧
      (addEmoji env db ResponseWriter.new r).2.rows =
        db.rows ++ [⟨env.newID, emoji.Character⟩]) ∧
    (∀ c : String, decodeEmoji (.value (.obj [("character", .str c)])) = .ok ⟨0, c⟩) ∧
    (∀ (c : String) (k : Int), minInt ≤ k → k ≤ maxInt →
      decodeEmoji (.value (.obj [("id", .int k), ("character", .str c)])) = .ok ⟨k, c⟩) := by
  refine ⟨addEmoji_log env db r emoji hdec, ?_, ?_, decode_character, ?_⟩
  · intro r2 emoji2 h2 hc
    exact addEmoji_character_only env db r r2 emoji emoji2 hdec h2 hc
  · intro he hfresh
    rw [addEmoji_inserted env db r emoji hdec he hfresh]
    exact ⟨rfl, rfl, rfl⟩
  · intro c k hlo hhi
    exact decode_id_character k c hlo hhi

/-- Witness for C8: a body carrying id 99 and a two-glyph character. -/
theorem addEmoji_inserts_character_witness :
    decodeEmoji (Request.Body ⟨"POST", "/emojis",
        .value (.obj [("id", .int 99), ("character", .str "ab")]), []⟩) = .ok ⟨99, "ab"⟩ ∧
    (addEmoji (Env.healthy 5) ⟨[⟨1, "a"⟩], []⟩ ResponseWriter.new ⟨"POST", "/emojis",
        .value (.obj [("id", .int 99), ("character", .str "ab")]), []⟩).2.log =
      [Stmt.insert "ab"] ∧
    (addEmoji (Env.healthy 5) ⟨[⟨1, "a"⟩], []⟩ ResponseWriter.new ⟨"POST", "/emojis",
        .value (.obj [("id", .int 99), ("character", .str "ab")]), []⟩).2.rows =
      [⟨1, "a"⟩, ⟨5, "ab"⟩] :=
  have h := addEmoji_inserts_character (Env.healthy 5) ⟨[⟨1, "a"⟩], []⟩ ⟨"POST", "/emojis",
      .value (.obj [("id", .int 99), ("character", .str "ab")]), []⟩ ⟨99, "ab"⟩ (by decide)
  ⟨by decide, h.1, (h.2.2.1 rfl (by decide)).2.2⟩

/-- C2: when `addEmoji` is called with the body whose only member is
`character` set to `c` and answers 201 (the insert succeeded), a following
`getEmojis` whose query and scans succeed answers 200 with a JSON array; the
array holds one object with members `id` and `character` per row of the table
as the insert left it, and among them is an object whose `character` member is
the string `c`. -/
theorem addEmoji_getEmojis_round_trip (env env2 : Env) (db : DB) (r r2 : Request) (c : String)
    (hbody : r.Body = .value (.obj [("character", .str c)]))
    (hins : (addEmoji env db ResponseWriter.new r).1.code = 201)
    (hq : env2.stmtErr = none) (hs : ∀ i, env2.scanErr i = none) :
    ∃ xs id,
      (getEmojis env2 (addEmoji env db ResponseWriter.new r).2 ResponseWriter.new r2).1.code = 200 ∧
      (getEmojis env2 (addEmoji env db ResponseWriter.new r).2 ResponseWriter.new r2).1.body =
        [Chunk.json (JSON.arr xs)] ∧
      xs = (addEmoji env db ResponseWriter.new r).2.rows.map
        (fun e => JSON.obj [("id", JSON.int e.ID), ("character", JSON.str e.Character)]) ∧
      JSON.obj [("id", JSON.int id), ("character", JSON.str c)] ∈ xs := by
  have hdec : decodeEmoji r.Body = .ok ⟨0, c⟩ := by rw [hbody]; exact decode_character c
  obtain ⟨he, hfresh⟩ := (addEmoji_created_iff env db r ⟨0, c⟩ hdec).mp hins
  rw [addEmoji_inserted env db r ⟨0, c⟩ hdec he hfresh]
  refine ⟨(db.rows ++ [(⟨env.newID, c⟩ : Emoji)]).map
    (fun e => JSON.obj [("id", JSON.int e.ID), ("character", JSON.str e.Character)]),
    env.newID, ?_⟩
  rw [getEmojis_rows_array env2 _ r2 hq (fun i _ => hs i) (by simp)]
  refine ⟨rfl, rfl, rfl, ?_⟩
  exact List.mem_map.mpr ⟨⟨env.newID, c⟩, by simp, rfl⟩

/-- Witness for C2: inserting `x` into a one-row table, then listing. -/
theorem addEmoji_getEmojis_round_trip_witness :
    (addEmoji (Env.healthy 2) ⟨[⟨1, "a"⟩], []⟩ ResponseWriter.new
        ⟨"POST", "/emojis", .value (.obj [("character", .str "x")]), []⟩).1.code = 201 ∧
    ∃ xs id,
      (getEmojis (Env.healthy 0)
        (addEmoji (Env.healthy 2) ⟨[⟨1, "a"⟩], []⟩ ResponseWriter.new
          ⟨"POST", "/emojis", .value (.obj [("character", .str "x")]), []⟩).2
        ResponseWriter.new ⟨"GET", "/emojis", .malformed ⟨"EOF"⟩, []⟩).1.code = 200 ∧
      (getEmojis (Env.healthy 0)
        (addEmoji (Env.healthy 2) ⟨[⟨1, "a"⟩], []⟩ ResponseWriter.new
          ⟨"POST", "/emojis", .value (.obj [("character", .str "x")]), []⟩).2
        ResponseWriter.new ⟨"GET", "/emojis", .malformed ⟨"EOF"⟩, []⟩).1.body =
        [Chunk.json (JSON.arr xs)] ∧
      xs = (addEmoji (Env.healthy 2) ⟨[⟨1, "a"⟩], []⟩ ResponseWriter.new
          ⟨"POST", "/emojis", .value (.obj [("character", .str "x")]), []⟩).2.rows.map
        (fun e => JSON.obj [("id", JSON.int e.ID), ("character", JSON.str e.Character)]) ∧
      JSON.obj [("id", JSON.int id), ("character", JSON.str "x")] ∈ xs :=
  ⟨by decide,
    addEmoji_getEmojis_round_trip (Env.healthy 2) (Env.healthy 0) ⟨[⟨1, "a"⟩], []⟩
      ⟨"POST", "/emojis", .value (.obj [("character", .str "x")]), []⟩
      ⟨"GET", "/emojis", .malformed ⟨"EOF"⟩, []⟩ "x" rfl (by decide) rfl (fun _ => rfl)⟩

theorem saveError_isSome (saved : Option GoErr) (err : GoErr) :
    (saveError saved err).isSome = true := by
  cases saved <;> rfl

theorem storeMember_error (st : Emoji × Option GoErr) (m : String × JSON) :
    (storeMember st m).2.isSome = (st.2.isSome || badMember m) := by
  unfold storeMember badMember
  by_cases h1 : foldKey m.1 = "id"
  · simp only [h1, if_true]
    cases hv : m.2 with
    | int n =>
      by_cases hr : minInt ≤ n ∧ n ≤ maxInt
      · simp [storeID, hr]
      · simp [storeID, hr, saveError_isSome]
    | null => simp [storeID]
    | _ => simp [storeID, saveError_isSome]
  · simp only [h1, if_false]
    by_cases h2 : foldKey m.1 = "character"
    · simp only [h2, if_true]
      cases hv : m.2 <;> simp [storeCharacter, saveError_isSome]
    · simp [h2]

theorem foldl_storeMember_error (members : List (String × JSON)) (st : Emoji × Option GoErr) :
    (members.foldl storeMember st).2.isSome = (st.2.isSome || members.any badMember) := by
  induction members generalizing st with
  | nil => simp
  | cons m rest ih =>
    rw [List.foldl_cons, ih, storeMember_error, List.any_cons, Bool.or_assoc]

/-- The call `Decode` reports an error exactly for the rejected bodies. -/
theorem decode_error_iff_rejected (b : ReqBody) :
    (∃ err, decodeEmoji b = .error err) ↔ rejected b = true := by
  cases b with
  | malformed err => simp [decodeEmoji, rejected]
  | value v =>
    cases v with
    | obj members =>
      have h := foldl_storeMember_error members (⟨0, ""⟩, none)
      simp only [decodeEmoji, unmarshalEmoji, rejected]
      rcases hf : members.foldl storeMember (⟨0, ""⟩, none) with ⟨emoji, saved⟩
      rw [hf] at h
      cases saved with
      | none => simpa using h
      | some err => simpa using h
    | null => simp [decodeEmoji, unmarshalEmoji, rejected]
    | _ => simp [decodeEmoji, unmarshalEmoji, rejected]

/-- C5 fails at the body `{}`, a JSON object without a `character` member: on
a healthy database `addEmoji` answers 201 and a row with the empty character is
inserted, so the list result differs before and after. -/
theorem addEmoji_empty_object_accepted :
    (addEmoji (Env.healthy 2) ⟨[⟨1, "a"⟩], []⟩ ResponseWriter.new
        ⟨"POST", "/emojis", .value (.obj []), []⟩).1.code = 201 ∧
    (addEmoji (Env.healthy 2) ⟨[⟨1, "a"⟩], []⟩ ResponseWriter.new
        ⟨"POST", "/emojis", .value (.obj []), []⟩).2.rows = [⟨1, "a"⟩, ⟨2, ""⟩] ∧
    (getEmojis (Env.healthy 0) ⟨[⟨1, "a"⟩], []⟩ ResponseWriter.new
        ⟨"GET", "/emojis", .malformed ⟨"EOF"⟩, []⟩).1.body =
      [Chunk.json (JSON.arr [marshalEmoji ⟨1, "a"⟩])] ∧
    (getEmojis (Env.healthy 0)
        (addEmoji (Env.healthy 2) ⟨[⟨1, "a"⟩], []⟩ ResponseWriter.new
          ⟨"POST", "/emojis", .value (.obj []), []⟩).2
        ResponseWriter.new ⟨"GET", "/emojis", .malformed ⟨"EOF"⟩, []⟩).1.body =
      [Chunk.json (JSON.arr [marshalEmoji ⟨1, "a"⟩, marshalEmoji ⟨2, ""⟩])] :=
  ⟨by decide, by decide, rfl, rfl⟩

/-- C5 as amended: whenever `Decode` reports an error for the body (no JSON
value can be read from it, its value is neither an object nor `null`, or an `id`
or `character` member has the wrong type), `addEmoji` answers 400 with the
error text, issues no statement and leaves the database as it was, so the list
result is the same before and after. -/
theorem addEmoji_rejected_body (env : Env) (db : DB) (r : Request) (err : GoErr)
    (hdec : decodeEmoji r.Body = .error err) :
    (addEmoji env db ResponseWriter.new r).1.code = 400 ∧
    (addEmoji env db ResponseWriter.new r).1.body = [Chunk.text (err.Error ++ "\n")] ∧
    (addEmoji env db ResponseWriter.new r).2 = db ∧
    (∀ env2 r2,
      (getEmojis env2 (addEmoji env db ResponseWriter.new r).2 ResponseWriter.new r2).1 =
        (getEmojis env2 db ResponseWriter.new r2).1) := by
  rw [addEmoji_decode_failed env db r err hdec, httpError_new]
  exact ⟨rfl, rfl, rfl, fun _ _ => rfl⟩

/-- Witness for C5 as amended: a body whose `character` member is a number. -/
theorem addEmoji_rejected_body_witness :
    decodeEmoji (Request.Body ⟨"POST", "/emojis", .value (.obj [("character", .int 5)]), []⟩) =
      .error (fieldTypeError "number" "character" "string") ∧
    (addEmoji (Env.healthy 2) ⟨[⟨1, "a"⟩], []⟩ ResponseWriter.new
        ⟨"POST", "/emojis", .value (.obj [("character", .int 5)]), []⟩).1.code = 400 ∧
    (addEmoji (Env.healthy 2) ⟨[⟨1, "a"⟩], []⟩ ResponseWriter.new
        ⟨"POST", "/emojis", .value (.obj [("character", .int 5)]), []⟩).2.log = [] :=
  have h := addEmoji_rejected_body (Env.healthy 2) ⟨[⟨1, "a"⟩], []⟩
      ⟨"POST", "/emojis", .value (.obj [("character", .int 5)]), []⟩
      (fieldTypeError "number" "character" "string") (by decide)
  ⟨by decide, h.1, by rw [h.2.2.1]⟩


theorem httpError_new_isError (msg : String) (code : Nat) :
    (httpError ResponseWriter.new msg code).isError code msg := by
  rw [httpError_new]
  exact ⟨rfl, by simp, rfl⟩

theorem httpError_cors_isError (msg : String) (code : Nat) :
    (httpError corsWriter msg code).isError code msg := by
  rw [httpError_cors]
  exact ⟨rfl, by simp, rfl⟩

theorem scanLoop_first_failure (scanErr : Nat → Option GoErr) (rows : List Emoji)
    (k i : Nat) (acc : Slice Emoji) (err : GoErr) (hi : i < rows.length)
    (hbefore : ∀ j, j < i → scanErr (k + j) = none) (hat : scanErr (k + i) = some err) :
    scanLoop (scanRows scanErr k rows) acc = .error err := by
  induction rows generalizing k i acc with
  | nil => simp at hi
  | cons e rest ih =>
    cases i with
    | zero =>
      have h0 : scanErr k = some err := by simpa using hat
      simp [scanRows, h0, scanLoop]
    | succ i =>
      have h0 : scanErr k = none := by simpa using hbefore 0 (by omega)
      have hrest := ih (k + 1) i (goAppend acc e) (by simpa using hi)
        (fun j hj => by
          have := hbefore (j + 1) (by omega)
          rwa [show k + 1 + j = k + (j + 1) by omega])
        (by rwa [show k + 1 + i = k + (i + 1) by omega])
      simp [scanRows, h0, scanLoop, hrest]

theorem getEmojis_scan_failed (env : Env) (db : DB) (r : Request) (err : GoErr) (i : Nat)
    (hq : env.stmtErr = none) (hi : i < db.rows.length)
    (hbefore : ∀ j, j < i → env.scanErr j = none) (hat : env.scanErr i = some err) :
    getEmojis env db ResponseWriter.new r =
      (httpError ResponseWriter.new err.Error StatusInternalServerError,
        { db with log := db.log ++ [Stmt.select] }) := by
  have hloop : scanLoop (scanRows env.scanErr 0 db.rows) none = .error err :=
    scanLoop_first_failure env.scanErr db.rows 0 i none err hi
      (by simpa using hbefore) (by simpa using hat)
  simp [getEmojis, DB.Query, hq, hloop]

theorem getEmojis_log (env : Env) (db : DB) (w : ResponseWriter) (r : Request) :
    (getEmojis env db w r).2.log = db.log ++ [Stmt.select] := by
  unfold getEmojis DB.Query
  cases env.stmtErr with
  | some err => rfl
  | none =>
    simp only
    cases scanLoop (scanRows env.scanErr 0 db.rows) none with
    | error err => rfl
    | ok emojis => rfl

theorem addEmoji_statements (env : Env) (db : DB) (r : Request) :
    ∃ stmts, (addEmoji env db ResponseWriter.new r).2.log = db.log ++ stmts ∧
      stmts.length ≤ 1 := by
  cases hdec : decodeEmoji r.Body with
  | error err =>
    rw [addEmoji_decode_failed env db r err hdec]
    exact ⟨[], by simp, by simp⟩
  | ok emoji =>
    exact ⟨[Stmt.insert emoji.Character], addEmoji_log env db r emoji hdec, by simp⟩

theorem deleteEmoji_statements (env : Env) (db : DB) (r : Request) :
    ∃ stmts, (deleteEmoji env db ResponseWriter.new r).2.log = db.log ++ stmts ∧
      stmts.length ≤ 1 := by
  by_cases hm : r.Method = "OPTIONS"
  · rw [deleteEmoji_options env db r hm]
    exact ⟨[], by simp, by simp⟩
  · cases hid : Atoi (lookupVar r.Vars "id") with
    | error err =>
      rw [deleteEmoji_bad_id env db r err hm hid]
      exact ⟨[], by simp, by simp⟩
    | ok id =>
      refine ⟨[Stmt.delete id], ?_, by simp⟩
      cases he : env.stmtErr with
      | some err => rw [deleteEmoji_exec_failed env db r id err hm hid he]
      | none =>
        cases hr : env.rowsAffectedErr with
        | some err => rw [deleteEmoji_count_failed env db r id err hm hid he hr]
        | none =>
          rcases Nat.eq_zero_or_pos (db.rows.countP (fun e => e.ID = id)) with hn | hn
          · rw [deleteEmoji_none_affected env db r id hm hid he hr hn]
          · rw [deleteEmoji_some_affected env db r id hm hid he hr hn]

/-- C9 fails on the invalid-id path of `deleteEmoji`: for the segment `abc` the
underlying error is the one of `strconv.Atoi`, but the body sent with the 400
is the fixed text `Invalid ID`. -/
theorem invalid_id_body_is_fixed_text :
    Atoi (lookupVar [("id", "abc")] "id") =
      .error ⟨"strconv.Atoi: parsing \"abc\": invalid syntax"⟩ ∧
    (deleteEmoji (Env.healthy 0) ⟨[⟨1, "a"⟩], []⟩ ResponseWriter.new
        ⟨"DELETE", "/emojis/abc", .malformed ⟨"EOF"⟩, [("id", "abc")]⟩).1.code = 400 ∧
    (deleteEmoji (Env.healthy 0) ⟨[⟨1, "a"⟩], []⟩ ResponseWriter.new
        ⟨"DELETE", "/emojis/abc", .malformed ⟨"EOF"⟩, [("id", "abc")]⟩).1.body =
      [Chunk.text "Invalid ID\n"] ∧
    (deleteEmoji (Env.healthy 0) ⟨[⟨1, "a"⟩], []⟩ ResponseWriter.new
        ⟨"DELETE", "/emojis/abc", .malformed ⟨"EOF"⟩, [("id", "abc")]⟩).1.body ≠
      [Chunk.text "strconv.Atoi: parsing \"abc\": invalid syntax"] ∧
    (deleteEmoji (Env.healthy 0) ⟨[⟨1, "a"⟩], []⟩ ResponseWriter.new
        ⟨"DELETE", "/emojis/abc", .malformed ⟨"EOF"⟩, [("id", "abc")]⟩).1.body ≠
      [Chunk.text "strconv.Atoi: parsing \"abc\": invalid syntax\n"] := by
  have hbody : (deleteEmoji (Env.healthy 0) ⟨[⟨1, "a"⟩], []⟩ ResponseWriter.new
        ⟨"DELETE", "/emojis/abc", .malformed ⟨"EOF"⟩, [("id", "abc")]⟩).1.body =
      [Chunk.text "Invalid ID\n"] := rfl
  refine ⟨by decide, by decide, hbody, ?_, ?_⟩
  · rw [hbody]
    intro h
    simp at h
  · rw [hbody]
    intro h
    simp at h

/-- C9 as amended: every handler issues at most one database statement per
request, and each failure path listed below answers with a failure status and a
plain-text body made of one message and a newline.  The message is the text of the
underlying error where there is one that is passed on (the query or scan error
in `getEmojis`, the decode or insert error in `addEmoji`, the delete or
row-count error in `deleteEmoji`); it is the fixed text `Invalid ID` when the
id does not parse and `Emoji not found` when no row was affected. -/
theorem handlers_failure_paths (env : Env) (db : DB) (r : Request) :
    (∃ stmts, (getEmojis env db ResponseWriter.new r).2.log = db.log ++ stmts ∧
      stmts.length ≤ 1) ∧
    (∃ stmts, (addEmoji env db ResponseWriter.new r).2.log = db.log ++ stmts ∧
      stmts.length ≤ 1) ∧
    (∃ stmts, (deleteEmoji env db ResponseWriter.new r).2.log = db.log ++ stmts ∧
      stmts.length ≤ 1) ∧
    (∀ err, env.stmtErr = some err →
      (getEmojis env db ResponseWriter.new r).1.isError 500 err.Error) ∧
    (∀ err i, env.stmtErr = none → i < db.rows.length →
      (∀ j, j < i → env.scanErr j = none) → env.scanErr i = some err →
      (getEmojis env db ResponseWriter.new r).1.isError 500 err.Error) ∧
    (∀ err, decodeEmoji r.Body = .error err →
      (addEmoji env db ResponseWriter.new r).1.isError 400 err.Error ∧
      (addEmoji env db ResponseWriter.new r).2 = db) ∧
    (∀ emoji err, decodeEmoji r.Body = .ok emoji →
      (db.ExecInsert env emoji.Character).1 = .error err →
      (addEmoji env db ResponseWriter.new r).1.isError 500 err.Error) ∧
    (r.Method ≠ "OPTIONS" →
      (∀ err, Atoi (lookupVar r.Vars "id") = .error err →
        (deleteEmoji env db ResponseWriter.new r).1.isError 400 "Invalid ID" ∧
        (deleteEmoji env db ResponseWriter.new r).2 = db) ∧
      (∀ id err, Atoi (lookupVar r.Vars "id") = .ok id → env.stmtErr = some err →
        (deleteEmoji env db ResponseWriter.new r).1.isError 500 err.Error) ∧
      (∀ id err, Atoi (lookupVar r.Vars "id") = .ok id → env.stmtErr = none →
        env.rowsAffectedErr = some err →
        (deleteEmoji env db ResponseWriter.new r).1.isError 500 err.Error) ∧
      (∀ id, Atoi (lookupVar r.Vars "id") = .ok id → env.stmtErr = none →
        env.rowsAffectedErr = none → db.rows.countP (fun e => e.ID = id) = 0 →
        (deleteEmoji env db ResponseWriter.new r).1.isError 404 "Emoji not found")) := by
  refine ⟨⟨[Stmt.select], getEmojis_log env db _ r, by simp⟩, addEmoji_statements env db r,
    deleteEmoji_statements env db r, ?_, ?_, ?_, ?_, ?_⟩
  · intro err hq
    rw [getEmojis_query_failed env db r err hq]
    exact httpError_new_isError _ _
  · intro err i hq hi hbefore hat
    rw [getEmojis_scan_failed env db r err i hq hi hbefore hat]
    exact httpError_new_isError _ _
  · intro err hdec
    rw [addEmoji_decode_failed env db r err hdec]
    exact ⟨httpError_new_isError _ _, rfl⟩
  · intro emoji err hdec hexec
    cases he : env.stmtErr with
    | some e =>
      have : e = err := by simpa [DB.ExecInsert, he] using hexec
      rw [addEmoji_exec_failed env db r emoji e hdec he, this]
      exact httpError_new_isError _ _
    | none =>
      by_cases hdup : env.newID ∈ db.ids
      · have : uniqueViolation = err := by simpa [DB.ExecInsert, he, hdup] using hexec
        rw [addEmoji_duplicate_id env db r emoji hdec he hdup, this]
        exact httpError_new_isError _ _
      · simp [DB.ExecInsert, he, hdup] at hexec
  · intro hm
    refine ⟨?_, ?_, ?_, ?_⟩
    · intro err hid
      rw [deleteEmoji_bad_id env db r err hm hid]
      exact ⟨httpError_cors_isError _ _, rfl⟩
    · intro id err hid he
      rw [deleteEmoji_exec_failed env db r id err hm hid he]
      exact httpError_cors_isError _ _
    · intro id err hid he hr
      rw [deleteEmoji_count_failed env db r id err hm hid he hr]
      exact httpError_cors_isError _ _
    · intro id hid he hr hn
      rw [deleteEmoji_none_affected env db r id hm hid he hr hn]
      exact httpError_cors_isError _ _


/-- Witness for C9 as amended: a query that fails with a driver error. -/
theorem handlers_failure_paths_witness :
    (getEmojis ⟨some ⟨"pq: connection refused"⟩, fun _ => none, none, 0⟩ ⟨[⟨1, "a"⟩], []⟩
        ResponseWriter.new ⟨"GET", "/emojis", .malformed ⟨"EOF"⟩, []⟩).1.isError 500
      "pq: connection refused" :=
  (handlers_failure_paths ⟨some ⟨"pq: connection refused"⟩, fun _ => none, none, 0⟩
    ⟨[⟨1, "a"⟩], []⟩ ⟨"GET", "/emojis", .malformed ⟨"EOF"⟩, []⟩).2.2.2.1
    ⟨"pq: connection refused"⟩ rfl

/-! ## The router and OPTIONS -/

theorem matchRoutes_options (path : String) (h : HandlerFunc) (vars : List (String × String)) :
    matchRoutes routes "OPTIONS" path false ≠ .found h vars := by
  have h1 : ("OPTIONS" : String) ∉ ["GET"] := by decide
  have h2 : ("OPTIONS" : String) ∉ ["POST"] := by decide
  have h3 : ("OPTIONS" : String) ∉ ["DELETE"] := by decide
  simp only [routes, matchRoutes]
  cases (Template.literal "/emojis").matchPath path <;>
    cases (Template.variable "/emojis/" "id").matchPath path <;>
    simp [h1, h2, h3]

/-- C10 at `OPTIONS /emojis/1`: the handler `deleteEmoji`, were it called with
this request, would answer 200 with an empty body and issue no statement; the
router built in `main` registers the route for DELETE only, finds the method
mismatched, and answers 405 without calling any handler.  No path at all gets
an OPTIONS request dispatched to a handler. -/
theorem router_options_not_dispatched (env : Env) (db : DB) (body : ReqBody) :
    (deleteEmoji env db ResponseWriter.new ⟨"OPTIONS", "/emojis/1", body, [("id", "1")]⟩).1.code
      = 200 ∧
    (deleteEmoji env db ResponseWriter.new ⟨"OPTIONS", "/emojis/1", body, [("id", "1")]⟩).1.body
      = [] ∧
    (deleteEmoji env db ResponseWriter.new ⟨"OPTIONS", "/emojis/1", body, [("id", "1")]⟩).2 = db ∧
    matchRoutes routes "OPTIONS" "/emojis/1" false = Match.methodMismatch ∧
    ServeHTTP env db ResponseWriter.new ⟨"OPTIONS", "/emojis/1", body, []⟩ =
      (⟨[], some 405, []⟩, db) ∧
    (ServeHTTP env db ResponseWriter.new ⟨"OPTIONS", "/emojis/1", body, []⟩).1.code ≠ 200 ∧
    (∀ path h vars, matchRoutes routes "OPTIONS" path false ≠ Match.found h vars) := by
  have hmatch : matchRoutes routes "OPTIONS" "/emojis/1" false = Match.methodMismatch := by
    decide
  have hserve : ServeHTTP env db ResponseWriter.new ⟨"OPTIONS", "/emojis/1", body, []⟩ =
      (⟨[], some 405, []⟩, db) := by
    simp only [ServeHTTP, hmatch]
    rfl
  refine ⟨?_, ?_, ?_, hmatch, hserve, ?_, matchRoutes_options⟩
  · rw [deleteEmoji_options env db _ rfl]; rfl
  · rw [deleteEmoji_options env db _ rfl]; rfl
  · rw [deleteEmoji_options env db _ rfl]
  · rw [hserve]
    show (405 : Nat) ≠ 200
    decide

end EmojiDB
